import Mathlib

/-
Verification of the job lifecycle orchestrator in KubeJobSub/AzureBatch.py.

The Python source is shallowly embedded: pure computations (path handling,
name derivation, configuration parsing) become Lean functions; the effectful
calls against the Azure blob and batch services become explicit event lists
(the sequence of remote operations a run performs), with the environment
(glob expansion, the blobs present in a container, the task states observed
by each polling round, the set of directories existing on the local
filesystem) passed in as explicit parameters.  Fallible code returns Except;
statement sequences that can raise are modelled by an explicit
attempted-steps function driven by a failure oracle.
-/

/-! ## Python / os.path primitives used by the source -/

/-- Python `str.rstrip()`: drop trailing whitespace. -/
def pyRstrip (s : String) : String :=
  ⟨(s.data.reverse.dropWhile Char.isWhitespace).reverse⟩

/-- Python `str.lower()` (over the ASCII names this program uses). -/
def pyLower (s : String) : String :=
  ⟨s.data.map Char.toLower⟩

/-- Worker for `pySplitWs`: `cur` holds the characters of the current
token in reverse. -/
def pySplitWsChars : List Char → List Char → List String
  | [], cur => if cur = [] then [] else [String.mk cur.reverse]
  | c :: cs, cur =>
    if c.isWhitespace then
      if cur = [] then pySplitWsChars cs []
      else String.mk cur.reverse :: pySplitWsChars cs []
    else pySplitWsChars cs (c :: cur)

/-- Python `str.split()` with no separator: split on runs of whitespace,
dropping empty tokens. -/
def pySplitWs (s : String) : List String :=
  pySplitWsChars s.data []

/-- Worker for `pySplitColonEq`: split a character list at every
(non-overlapping, leftmost-first) occurrence of `:=`; `cur` holds the
current segment in reverse. -/
def splitOnColonEq : List Char → List Char → List String
  | [], cur => [String.mk cur.reverse]
  | [c], cur => [String.mk (c :: cur).reverse]
  | c1 :: c2 :: cs, cur =>
    if c1 = ':' ∧ c2 = '=' then
      String.mk cur.reverse :: splitOnColonEq cs []
    else splitOnColonEq (c2 :: cs) (c1 :: cur)

/-- Python `str.split(":=")`: the list of segments between occurrences of
the `:=` separator (a string without the separator yields the singleton of
itself; splitting the empty string yields `[""]`). -/
def pySplitColonEq (s : String) : List String :=
  splitOnColonEq s.data []

/-- POSIX `os.path.split`: split at the final slash; the head has its
trailing slashes stripped unless it consists only of slashes. -/
def osPathSplit (p : String) : String × String :=
  let cs := p.data
  let i := cs.length - cs.reverse.findIdx (fun c => c == '/')
  let head0 := cs.take i
  let tail := cs.drop i
  let head :=
    if ¬ head0 = [] ∧ head0.any (fun c => ¬ c = '/') then
      (head0.reverse.dropWhile (fun c => c == '/')).reverse
    else head0
  (⟨head⟩, ⟨tail⟩)

/-- POSIX `os.path.join` on two components. -/
def osPathJoin (a b : String) : String :=
  if b.data.head? = some '/' then b
  else if a = "" ∨ a.data.getLast? = some '/' then a ++ b
  else a ++ "/" ++ b

/-- Split a character list at every slash; `cur` holds the current segment
in reverse. -/
def splitOnSlash : List Char → List Char → List String
  | [], cur => [String.mk cur.reverse]
  | c :: cs, cur =>
    if c = '/' then String.mk cur.reverse :: splitOnSlash cs []
    else splitOnSlash cs (c :: cur)

/-- Join path components with slashes. -/
def intercalateSlash : List String → String
  | [] => ""
  | [s] => s
  | s :: rest => s ++ "/" ++ intercalateSlash rest

/-- The directories brought into existence by `os.makedirs p`: every
ancestor of `p` together with `p` itself. -/
def ancestorDirs (p : String) : List String :=
  let parts := splitOnSlash p.data []
  (List.range parts.length).map (fun k => intercalateSlash (parts.take (k + 1)))

/-! ## Data model (azure.batch.models / azure.storage.blob, and the
AzureBatch object of the source) -/

/-- Observable state of a batch task (`azure.batch.models.TaskState`); the
source only ever compares against `completed`. -/
inductive TaskState where
  | active
  | preparing
  | running
  | completed
  deriving DecidableEq

/-- One task as reported by `batch_client.task.list`: its state and the exit
code of the command it ran.  The exit code is carried to express that the
poller never looks at it. -/
structure CloudTask where
  state : TaskState
  exit_code : Int
  deriving DecidableEq

/-- `azure.batch.models.ResourceFile`. -/
structure ResourceFile where
  file_path : String
  blob_source : String
  deriving DecidableEq

/-- `azure.batch.models.OutputFileUploadCondition`. -/
inductive OutputFileUploadCondition where
  | task_success
  | task_failure
  | task_completion
  deriving DecidableEq

/-- `azure.batch.models.OutputFile` flattened: the file pattern, the
container destination URL, the optional path inside the container, and the
upload condition. -/
structure OutputFile where
  file_pattern : String
  container_url : String
  path : Option String
  upload_condition : OutputFileUploadCondition
  deriving DecidableEq

/-- `azure.batch.models.ImageReference`. -/
structure ImageReference where
  publisher : String
  offer : String
  sku : String
  version : String
  deriving DecidableEq

/-- `azure.batch.models.VirtualMachineConfiguration`. -/
structure VirtualMachineConfiguration where
  image_reference : ImageReference
  node_agent_sku_id : String
  deriving DecidableEq

/-- `azure.batch.models.PoolAddParameter`. -/
structure PoolAddParameter where
  id : String
  virtual_machine_configuration : VirtualMachineConfiguration
  vm_size : String
  target_dedicated_nodes : Nat
  target_low_priority_nodes : Nat
  deriving DecidableEq

/-- `azure.batch.models.JobAddParameter` (id and the pool it binds to). -/
structure JobAddParameter where
  id : String
  pool_id : String
  deriving DecidableEq

/-- `azure.batch.models.TaskAddParameter`. -/
structure TaskAddParameter where
  id : String
  command_line : String
  resource_files : List ResourceFile
  output_files : List OutputFile
  deriving DecidableEq

/-- One remote side effect performed by the orchestrator, in program
order. -/
inductive Event where
  | createContainer (name : String)
  | createBlob (container : String) (blob : String)
  | poolAdd (pool_id : String)
  | jobAdd (job_id : String) (pool_id : String)
  | taskAdd (job_id : String) (task_id : String)
  | taskList (job_id : String)
  | jobDelete (job_id : String)
  | poolDelete (pool_id : String)
  | listBlobs (container : String)
  | getBlob (container : String) (blob : String) (path : String)
  | makedirs (path : String)
  | deleteContainer (name : String)
  deriving DecidableEq

/-- The validated AzureBatch object state read by the operation methods
(the JobSpec of the design): the attributes set by `parse_configuration_file`
once `check_no_attributes_none` has ensured none of them is still None.
Field order follows `AzureBatch.__init__`. -/
structure JobSpec where
  batch_account_name : String
  batch_account_key : String
  batch_account_url : String
  storage_account_name : String
  storage_account_key : String
  job_name : String
  command : String
  vm_image : String
  vm_size : String
  input : List String
  output : List String
  deriving DecidableEq

/-- The raw AzureBatch object as built by `__init__` and filled in by
`parse_configuration_file`: every credential and job attribute starts as
None, `vm_size` starts at its default, the input and output lists start
empty. -/
structure AzureBatch where
  batch_account_name : Option String
  batch_account_key : Option String
  batch_account_url : Option String
  storage_account_name : Option String
  storage_account_key : Option String
  job_name : Option String
  command : Option String
  vm_image : Option String
  vm_size : String
  input : List String
  output : List String
  deriving DecidableEq

/-- `AzureBatch.__init__`. -/
def AzureBatch.init : AzureBatch :=
  ⟨none, none, none, none, none, none, none, none, "Standard_D16s_v3", [], []⟩

/-- The uncaught Python exceptions `parse_configuration_file` can raise:
`IndexError` from `x[1]` on a separator-less line, and the `AttributeError`
listing unrecognized options. -/
inductive PyError where
  | indexError
  | attributeError (options : List String)
  deriving DecidableEq

/-- The four teardown statements of `__main__` (lines 361-366). -/
inductive TeardownStep where
  | deleteJob
  | deletePool
  | downloadOutputFilesAndDeleteContainer
  | deleteInputContainer
  deriving DecidableEq

/-! ## StagingClient operations (AzureBatch.py lines 22-38, 73-136, 171-202) -/

/-- Opaque model of
`blob_service.generate_container_shared_access_signature(container, permission, expiry)`:
the Azure SDK mints an unforgeable signature string; only its flow into URLs
matters to the orchestrator, so it is modelled as a tagged string. -/
def generate_container_shared_access_signature
    (account_key container_name permission : String) : String :=
  "sig-" ++ permission ++ "-" ++ container_name ++ "-" ++ account_key

/-- `blob_service.make_blob_url(container_name, blob_name, sas_token)`. -/
def make_blob_url (account_name container_name blob_name sas_token : String) : String :=
  "https://" ++ account_name ++ ".blob.core.windows.net/" ++ container_name
    ++ "/" ++ blob_name ++ "?" ++ sas_token

/-- `AzureBatch._create_resource_file` (source lines 73-101): upload one
local file into the input container under its basename and build the
ResourceFile pointing at it, rooted at `destination_dir` when one is
given.  Returns the blob-upload event together with the ResourceFile. -/
def create_resource_file (storage_account_name storage_account_key : String)
    (input_container_name file_to_upload : String)
    (destination_dir : Option String) : Event × ResourceFile :=
  let blob_name := (osPathSplit file_to_upload).2
  let sas_token := generate_container_shared_access_signature storage_account_key
    input_container_name "READ"
  let sas_url := make_blob_url storage_account_name input_container_name blob_name sas_token
  (Event.createBlob input_container_name blob_name,
   match destination_dir with
   | some d => ⟨osPathJoin d (osPathSplit file_to_upload).2, sas_url⟩
   | none => ⟨(osPathSplit file_to_upload).2, sas_url⟩)

/-- One iteration of the loop body of `upload_input_to_blob_storage`
(source lines 116-135) for a single INPUT request string: a single
whitespace token is a glob uploaded to the remote root; with several
tokens the last is the remote destination directory for the files matched
by the remaining globs.  `glob` is the local filesystem oracle
(`glob.glob`). -/
def uploadRequest (storage_account_name storage_account_key : String)
    (input_container_name : String) (glob : String → List String)
    (input_request : String) : List Event × List ResourceFile :=
  if (pySplitWs input_request).length = 1 then
    (((glob input_request).map (fun file_to_upload =>
        create_resource_file storage_account_name storage_account_key
          input_container_name file_to_upload none)).map Prod.fst,
     ((glob input_request).map (fun file_to_upload =>
        create_resource_file storage_account_name storage_account_key
          input_container_name file_to_upload none)).map Prod.snd)
  else if (pySplitWs input_request).length > 1 then
    (((((pySplitWs input_request).dropLast.map glob).flatten).map (fun file_to_upload =>
        create_resource_file storage_account_name storage_account_key
          input_container_name file_to_upload
          (some ((pySplitWs input_request).getLastD "")))).map Prod.fst,
     ((((pySplitWs input_request).dropLast.map glob).flatten).map (fun file_to_upload =>
        create_resource_file storage_account_name storage_account_key
          input_container_name file_to_upload
          (some ((pySplitWs input_request).getLastD "")))).map Prod.snd)
  else ([], [])

/-- `AzureBatch.upload_input_to_blob_storage` (source lines 103-136):
create the input container named `job_name.lower() + "-input"`, then stage
every INPUT request into it; returns the emitted events together with the
accumulated resource files. -/
def upload_input_to_blob_storage (self : JobSpec) (glob : String → List String) :
    List Event × List ResourceFile :=
  let input_container_name := pyLower self.job_name ++ "-input"
  let per := self.input.map (uploadRequest self.storage_account_name
    self.storage_account_key input_container_name glob)
  (Event.createContainer input_container_name :: (per.map Prod.fst).flatten,
   (per.map Prod.snd).flatten)

/-! ## ResourceProvisioner operations (source lines 138-169, 171-226) -/

/-- `AzureBatch.create_pool` (source lines 138-156): one pool whose id is
`job_name`, with the hardcoded Canonical UbuntuServer 16.04-LTS image (the
`virtual_machine_image_id=self.vm_image` line is commented out in the
source), the vm size from the object, one dedicated node and zero
low-priority nodes. -/
def create_pool (self : JobSpec) : PoolAddParameter × List Event :=
  (⟨self.job_name,
    ⟨⟨"Canonical", "UbuntuServer", "16.04-LTS", "latest"⟩, "batch.node.ubuntu 16.04"⟩,
    self.vm_size, 1, 0⟩,
   [Event.poolAdd self.job_name])

/-- `AzureBatch.create_job` (source lines 158-161): one job whose id is
`job_name`, bound to the pool of the same name. -/
def create_job (self : JobSpec) : JobAddParameter × List Event :=
  (⟨self.job_name, self.job_name⟩,
   [Event.jobAdd self.job_name self.job_name])

/-- `AzureBatch.delete_job` (source lines 163-165). -/
def delete_job (self : JobSpec) : List Event :=
  [Event.jobDelete self.job_name]

/-- `AzureBatch.delete_pool` (source lines 167-169). -/
def delete_pool (self : JobSpec) : List Event :=
  [Event.poolDelete self.job_name]

/-- `AzureBatch.prepare_output_resource_files` (source lines 171-187): one
OutputFile per whitespace token of every OUTPUT request, each conditioned
on task success, plus the catch-all `std*.txt` log capture. -/
def prepare_output_resource_files (self : JobSpec) (sas_url : String) : List OutputFile :=
  ((self.output.map (fun output_request =>
      (pySplitWs output_request).map (fun output_item =>
        (⟨output_item, sas_url, some (osPathSplit output_item).1,
          OutputFileUploadCondition.task_success⟩ : OutputFile)))).flatten)
    ++ [⟨"std*.txt", sas_url, none, OutputFileUploadCondition.task_success⟩]

/-! ## Download (source lines 22-38, 189-202) -/

/-- The blob loop of `download_container` (source lines 25-38), threading
the set of locally existing directories: a blob whose name contains a
slash is mirrored under `output_dir` (its directory created by
`os.makedirs` unless `os.path.isdir` already sees it); a blob without a
slash is written to the path `blob.name` itself, which ignores
`output_dir`. -/
def download_loop (container_name output_dir : String) :
    List String → List String → List Event
  | _, [] => []
  | dirs, blob :: rest =>
    if blob.data.contains '/' then
      if osPathJoin output_dir (osPathSplit blob).1 ∈ dirs then
        Event.getBlob container_name blob
            (osPathJoin (osPathJoin output_dir (osPathSplit blob).1) (osPathSplit blob).2)
          :: download_loop container_name output_dir dirs rest
      else
        Event.makedirs (osPathJoin output_dir (osPathSplit blob).1)
          :: Event.getBlob container_name blob
              (osPathJoin (osPathJoin output_dir (osPathSplit blob).1) (osPathSplit blob).2)
          :: download_loop container_name output_dir
              (dirs ++ ancestorDirs (osPathJoin output_dir (osPathSplit blob).1)) rest
    else
      Event.getBlob container_name blob blob
        :: download_loop container_name output_dir dirs rest

/-- `download_container` (source lines 22-38): list the blobs of the
container, then run the download loop.  `dirs` is the set of directories
existing locally before the call and `blobs` the container listing. -/
def download_container (container_name output_dir : String)
    (dirs blobs : List String) : List Event :=
  Event.listBlobs container_name :: download_loop container_name output_dir dirs blobs

/-- `AzureBatch.download_output_files_and_delete_container` (source lines
189-196): download the whole `job_name.lower() + "-output"` container to
the current directory, then delete that container. -/
def download_output_files_and_delete_container (self : JobSpec)
    (dirs blobs : List String) : List Event :=
  let output_container := pyLower self.job_name ++ "-output"
  download_container output_container "." dirs blobs
    ++ [Event.deleteContainer output_container]

/-- `AzureBatch.delete_input_container` (source lines 198-202). -/
def delete_input_container (self : JobSpec) : List Event :=
  [Event.deleteContainer (pyLower self.job_name ++ "-input")]

/-! ## Task creation (source lines 204-226) -/

/-- The hardcoded extra resource file appended by `create_task` (source
lines 216-217). -/
def confindr_database : ResourceFile :=
  ⟨"confindr.tar.gz", "https://carlingst01.blob.core.windows.net/databases/confindr.tar.gz"⟩

/-- `AzureBatch.create_task` (source lines 204-226): create the output
container `job_name.lower() + "-output"`, mint a write SAS URL for it,
build the output files, append the hardcoded confindr database to the
caller-supplied `input_files` list (a Python in-place `.append`; the
mutated list is returned as the second component), and add task `Task1` to
the job, its command wrapped in `/bin/bash -c`. -/
def create_task (self : JobSpec) (input_files : List ResourceFile) :
    TaskAddParameter × List ResourceFile × List Event :=
  let output_container_name := pyLower self.job_name ++ "-output"
  let sas_token := generate_container_shared_access_signature self.storage_account_key
    output_container_name "WRITE"
  let sas_url := "https://" ++ self.storage_account_name ++ ".blob.core.windows.net/"
    ++ output_container_name ++ "?" ++ sas_token
  let output_files := prepare_output_resource_files self sas_url
  let input_files := input_files ++ [confindr_database]
  let task : TaskAddParameter :=
    ⟨"Task1", "/bin/bash -c \"" ++ self.command ++ "\"", input_files, output_files⟩
  (task, input_files,
   [Event.createContainer output_container_name, Event.taskAdd self.job_name "Task1"])

/-! ## CompletionPoller (source lines 228-239) -/

/-- The inner for-loop of `wait_for_tasks_to_complete` (source lines
236-238): starting from `all_tasks_completed = True`, clear the flag on
every task whose state is not `completed`. -/
def allTasksCompleted (tasks : List CloudTask) : Bool :=
  tasks.foldl
    (fun all_tasks_completed task =>
      if ¬ task.state = TaskState.completed then false else all_tasks_completed)
    true

/-- `AzureBatch.wait_for_tasks_to_complete` (source lines 228-239) run
against a finite trace of polling rounds (the successive results of
`batch_client.task.list(self.job_name)`): returns the index of the round
after which the while loop exits, or none when the trace is exhausted with
the loop still running. -/
def wait_for_tasks_to_complete : List (List CloudTask) → Option Nat
  | [] => none
  | tasks :: rest =>
    if allTasksCompleted tasks then some 0
    else (wait_for_tasks_to_complete rest).map (fun i => i + 1)

/-- The `task.list` events emitted by the polling loop over a trace of
rounds: one listing per iteration, stopping after the first round whose
tasks are all completed. -/
def wait_events (job_name : String) : List (List CloudTask) → List Event
  | [] => []
  | tasks :: rest =>
    Event.taskList job_name
      :: (if allTasksCompleted tasks then [] else wait_events job_name rest)

/-! ## Configuration parsing (source lines 242-316) -/

/-- The if/elif dispatch of `parse_configuration_file` (source lines
284-308) on one recognized-or-not option: each recognized key sets its
field (INPUT and OUTPUT append), anything else is recorded as
unrecognized. -/
def applyOption (azurebatch : AzureBatch) (unrecognized_options : List String)
    (option parameter : String) : AzureBatch × List String :=
  if option = "BATCH_ACCOUNT_NAME" then
    ({ azurebatch with batch_account_name := some parameter }, unrecognized_options)
  else if option = "BATCH_ACCOUNT_KEY" then
    ({ azurebatch with batch_account_key := some parameter }, unrecognized_options)
  else if option = "BATCH_ACCOUNT_URL" then
    ({ azurebatch with batch_account_url := some parameter }, unrecognized_options)
  else if option = "STORAGE_ACCOUNT_NAME" then
    ({ azurebatch with storage_account_name := some parameter }, unrecognized_options)
  else if option = "STORAGE_ACCOUNT_KEY" then
    ({ azurebatch with storage_account_key := some parameter }, unrecognized_options)
  else if option = "JOB_NAME" then
    ({ azurebatch with job_name := some parameter }, unrecognized_options)
  else if option = "COMMAND" then
    ({ azurebatch with command := some parameter }, unrecognized_options)
  else if option = "INPUT" then
    ({ azurebatch with input := azurebatch.input ++ [parameter] }, unrecognized_options)
  else if option = "OUTPUT" then
    ({ azurebatch with output := azurebatch.output ++ [parameter] }, unrecognized_options)
  else if option = "VM_IMAGE" then
    ({ azurebatch with vm_image := some parameter }, unrecognized_options)
  else if option = "VM_SIZE" then
    ({ azurebatch with vm_size := parameter }, unrecognized_options)
  else
    (azurebatch, unrecognized_options ++ [option])

/-- One iteration of the line loop (source lines 279-308): rstrip the
line, split on the `:=` separator, index `x[0]` and `x[1]` (an IndexError
when the split has no second element), then dispatch. -/
def parse_line (azurebatch : AzureBatch) (unrecognized_options : List String)
    (config_option : String) : Except PyError (AzureBatch × List String) :=
  match pySplitColonEq (pyRstrip config_option) with
  | [] => Except.error PyError.indexError
  | [_] => Except.error PyError.indexError
  | option :: parameter :: _ =>
    Except.ok (applyOption azurebatch unrecognized_options option parameter)

/-- The whole line loop, threading the object and the unrecognized-option
accumulator; the first raised exception propagates. -/
def parse_lines (azurebatch : AzureBatch) (unrecognized_options : List String) :
    List String → Except PyError (AzureBatch × List String)
  | [] => Except.ok (azurebatch, unrecognized_options)
  | config_option :: rest =>
    match parse_line azurebatch unrecognized_options config_option with
    | Except.error e => Except.error e
    | Except.ok (ab, unrec) => parse_lines ab unrec rest

/-- `parse_configuration_file` (source lines 242-316) over the list of
lines read from the file: run the line loop from a fresh AzureBatch object,
then raise AttributeError when any option was unrecognized. -/
def parse_configuration_file (config_options : List String) :
    Except PyError AzureBatch :=
  match parse_lines AzureBatch.init [] config_options with
  | Except.error e => Except.error e
  | Except.ok (azurebatch, unrecognized_options) =>
    if unrecognized_options.length > 0 then
      Except.error (PyError.attributeError unrecognized_options)
    else Except.ok azurebatch

/-! ## The run (source lines 333-366) -/

/-- The event trace of one run of `__main__` (source lines 354-366) after
configuration validation: upload inputs, create pool, job and task, poll
until completion, delete job, delete pool, then download-and-delete the
output container when `download_output_files` is true (the `-d` flag,
`store_false`, makes it false), and finally delete the input container.
`glob`, `dirs`, `rounds` and `blobs` are the environment oracles. -/
def mainEvents (self : JobSpec) (glob : String → List String) (dirs : List String)
    (rounds : List (List CloudTask)) (blobs : List String)
    (download_output_files : Bool) : List Event :=
  (upload_input_to_blob_storage self glob).1
    ++ (create_pool self).2
    ++ (create_job self).2
    ++ (create_task self (upload_input_to_blob_storage self glob).2).2.2
    ++ wait_events self.job_name rounds
    ++ delete_job self
    ++ delete_pool self
    ++ (if download_output_files then
          download_output_files_and_delete_container self dirs blobs
        else [])
    ++ delete_input_container self

/-- The teardown statements of `__main__` (source lines 361-366) under a
failure oracle: the statements run in order, and the first call whose
oracle entry is true raises, which (there being no try/except in the
source) aborts the remaining statements.  Returns the attempted steps in
order together with the step whose exception escaped, if any. -/
def mainTeardown (fails : TeardownStep → Bool) (download_output_files : Bool) :
    List TeardownStep × Option TeardownStep :=
  if fails TeardownStep.deleteJob then
    ([TeardownStep.deleteJob], some TeardownStep.deleteJob)
  else if fails TeardownStep.deletePool then
    ([TeardownStep.deleteJob, TeardownStep.deletePool], some TeardownStep.deletePool)
  else if download_output_files then
    if fails TeardownStep.downloadOutputFilesAndDeleteContainer then
      ([TeardownStep.deleteJob, TeardownStep.deletePool,
        TeardownStep.downloadOutputFilesAndDeleteContainer],
       some TeardownStep.downloadOutputFilesAndDeleteContainer)
    else if fails TeardownStep.deleteInputContainer then
      ([TeardownStep.deleteJob, TeardownStep.deletePool,
        TeardownStep.downloadOutputFilesAndDeleteContainer,
        TeardownStep.deleteInputContainer],
       some TeardownStep.deleteInputContainer)
    else
      ([TeardownStep.deleteJob, TeardownStep.deletePool,
        TeardownStep.downloadOutputFilesAndDeleteContainer,
        TeardownStep.deleteInputContainer], none)
  else
    if fails TeardownStep.deleteInputContainer then
      ([TeardownStep.deleteJob, TeardownStep.deletePool,
        TeardownStep.deleteInputContainer],
       some TeardownStep.deleteInputContainer)
    else
      ([TeardownStep.deleteJob, TeardownStep.deletePool,
        TeardownStep.deleteInputContainer], none)

/-! ## The naming convention as the specification words it -/

/-- Modelled from the spec: input container name, `lower(job_name) + "-input"`. -/
def spec_input_container_name (job_name : String) : String :=
  pyLower job_name ++ "-input"

/-- Modelled from the spec: output container name, `lower(job_name) + "-output"`. -/
def spec_output_container_name (job_name : String) : String :=
  pyLower job_name ++ "-output"

/-! ## Event classifiers -/

/-- Events that belong to the download of a container (the blob listing
and the per-blob fetches). -/
def isDownloadEvent : Event → Bool
  | Event.listBlobs _ => true
  | Event.getBlob _ _ _ => true
  | _ => false

/-- The job-deletion event. -/
def isJobDeleteEvent : Event → Bool
  | Event.jobDelete _ => true
  | _ => false

/-- The task-creation event. -/
def isTaskAddEvent : Event → Bool
  | Event.taskAdd _ _ => true
  | _ => false

/-- Events that create a remote resource (container, pool, job or task). -/
def isCreationEvent : Event → Bool
  | Event.createContainer _ => true
  | Event.poolAdd _ => true
  | Event.jobAdd _ _ => true
  | Event.taskAdd _ _ => true
  | _ => false

/-- Events that belong to teardown: deletions and the output download. -/
def isTeardownEvent : Event → Bool
  | Event.jobDelete _ => true
  | Event.poolDelete _ => true
  | Event.deleteContainer _ => true
  | Event.listBlobs _ => true
  | Event.getBlob _ _ _ => true
  | Event.makedirs _ => true
  | _ => false

/-! ## Concrete run used by the counterexamples -/

/-- A concrete validated JobSpec. -/
def exampleSpec : JobSpec :=
  ⟨"batchacct", "batchkey", "https://batch.example.invalid", "storageacct",
   "storagekey", "myjob", "echo hi", "https://image.example.invalid/vm", "Standard_D16s_v3",
   ["in.csv"], ["out/result.json"]⟩

/-- A concrete local-glob oracle: the single input pattern matches one file. -/
def exampleGlob : String → List String :=
  fun pattern => if pattern = "in.csv" then ["in.csv"] else []

/-- One polling round in which the single task is already completed. -/
def exampleRounds : List (List CloudTask) :=
  [[⟨TaskState.completed, 0⟩]]

/-- The full event trace of the example run with output download requested. -/
def exampleTrace : List Event :=
  mainEvents exampleSpec exampleGlob [] exampleRounds ["a.txt"] true

/-- The full event trace of the example run with the skip-download flag set
(`download_output_files = false`). -/
def exampleTraceNoDownload : List Event :=
  mainEvents exampleSpec exampleGlob [] exampleRounds ["a.txt"] false

/-- Two JobSpecs that differ only in their `vm_image` attribute. -/
def poolSpecA : JobSpec :=
  ⟨"batchacct", "batchkey", "https://batch.example.invalid", "storageacct",
   "storagekey", "myjob", "echo hi", "image-A", "Standard_D4s_v3", ["in.csv"], ["o"]⟩

/-- Second of the two JobSpecs that differ only in `vm_image`. -/
def poolSpecB : JobSpec :=
  ⟨"batchacct", "batchkey", "https://batch.example.invalid", "storageacct",
   "storagekey", "myjob", "echo hi", "image-B", "Standard_D4s_v3", ["in.csv"], ["o"]⟩

/-- The blob-upload events of `upload_input_to_blob_storage` (everything
after the initial container creation). -/
def uploadBlobEvents (self : JobSpec) (glob : String → List String) : List Event :=
  ((self.input.map (uploadRequest self.storage_account_name self.storage_account_key
    (pyLower self.job_name ++ "-input") glob)).map Prod.fst).flatten

/-! ## Theorems -/

/-- C5: for every JobSpec the remote resource names are deterministic
functions of `job_name` and are used consistently by every operation: pool
id and job id are `job_name` exactly (creation, binding and deletion), the
input container used by upload and by input-container deletion is
`lower(job_name) + "-input"`, and the output container used by task
creation and by the output download/delete is `lower(job_name) +
"-output"`; the task is always added to job `job_name`. -/
theorem c5_resource_names (self : JobSpec) (input_files : List ResourceFile)
    (glob : String → List String) (dirs blobs : List String) :
    (create_pool self).1.id = self.job_name
    ∧ (create_job self).1.id = self.job_name
    ∧ (create_job self).1.pool_id = self.job_name
    ∧ delete_job self = [Event.jobDelete self.job_name]
    ∧ delete_pool self = [Event.poolDelete self.job_name]
    ∧ (upload_input_to_blob_storage self glob).1
        = Event.createContainer (spec_input_container_name self.job_name)
            :: uploadBlobEvents self glob
    ∧ delete_input_container self
        = [Event.deleteContainer (spec_input_container_name self.job_name)]
    ∧ (create_task self input_files).2.2
        = [Event.createContainer (spec_output_container_name self.job_name),
           Event.taskAdd self.job_name "Task1"]
    ∧ download_output_files_and_delete_container self dirs blobs
        = Event.listBlobs (spec_output_container_name self.job_name)
            :: (download_loop (spec_output_container_name self.job_name) "." dirs blobs
                ++ [Event.deleteContainer (spec_output_container_name self.job_name)]) := by
  refine ⟨rfl, rfl, rfl, rfl, rfl, rfl, rfl, rfl, ?_⟩
  simp [download_output_files_and_delete_container, download_container,
    spec_output_container_name]

/-- C5 witness: the naming theorem at a concrete JobSpec. -/
theorem c5_witness :
    (create_pool exampleSpec).1.id = exampleSpec.job_name
    ∧ (create_job exampleSpec).1.id = exampleSpec.job_name
    ∧ (create_job exampleSpec).1.pool_id = exampleSpec.job_name
    ∧ delete_job exampleSpec = [Event.jobDelete exampleSpec.job_name]
    ∧ delete_pool exampleSpec = [Event.poolDelete exampleSpec.job_name]
    ∧ (upload_input_to_blob_storage exampleSpec exampleGlob).1
        = Event.createContainer (spec_input_container_name exampleSpec.job_name)
            :: uploadBlobEvents exampleSpec exampleGlob
    ∧ delete_input_container exampleSpec
        = [Event.deleteContainer (spec_input_container_name exampleSpec.job_name)]
    ∧ (create_task exampleSpec []).2.2
        = [Event.createContainer (spec_output_container_name exampleSpec.job_name),
           Event.taskAdd exampleSpec.job_name "Task1"]
    ∧ download_output_files_and_delete_container exampleSpec [] ["a.txt"]
        = Event.listBlobs (spec_output_container_name exampleSpec.job_name)
            :: (download_loop (spec_output_container_name exampleSpec.job_name) "." [] ["a.txt"]
                ++ [Event.deleteContainer (spec_output_container_name exampleSpec.job_name)]) :=
  c5_resource_names exampleSpec [] exampleGlob [] ["a.txt"]

/-- C7 counterexample: two JobSpecs that differ only in `vm_image` produce
identical pools, and the pool image is the hardcoded Canonical UbuntuServer
16.04-LTS reference, so the VM image is not taken from the JobSpec as the
claim states. -/
theorem c7_counterexample :
    ¬ poolSpecA.vm_image = poolSpecB.vm_image
    ∧ create_pool poolSpecA = create_pool poolSpecB
    ∧ (create_pool poolSpecA).1.virtual_machine_configuration.image_reference
        = ⟨"Canonical", "UbuntuServer", "16.04-LTS", "latest"⟩
    ∧ ¬ (create_pool poolSpecA).1.virtual_machine_configuration.image_reference.publisher
        = poolSpecA.vm_image := by
  refine ⟨by decide, rfl, rfl, by decide⟩

/-- C7 amended: `create_pool` provisions exactly one pool with one
dedicated node and zero low-priority nodes, the VM size taken from the
JobSpec (the object defaults it to Standard_D16s_v3 unless overridden), but
the VM image is the hardcoded Canonical UbuntuServer 16.04-LTS reference;
the `vm_image` attribute of the JobSpec is ignored. -/
theorem c7_pool_parameters (self : JobSpec) :
    (create_pool self).1.id = self.job_name
    ∧ (create_pool self).1.target_dedicated_nodes = 1
    ∧ (create_pool self).1.target_low_priority_nodes = 0
    ∧ (create_pool self).1.vm_size = self.vm_size
    ∧ (create_pool self).1.virtual_machine_configuration.image_reference
        = ⟨"Canonical", "UbuntuServer", "16.04-LTS", "latest"⟩
    ∧ (create_pool self).2 = [Event.poolAdd self.job_name]
    ∧ AzureBatch.init.vm_size = "Standard_D16s_v3" :=
  ⟨rfl, rfl, rfl, rfl, rfl, rfl, rfl⟩

/-- C7 witness: the amended pool theorem at a concrete JobSpec. -/
theorem c7_witness :
    (create_pool exampleSpec).1.id = exampleSpec.job_name
    ∧ (create_pool exampleSpec).1.target_dedicated_nodes = 1
    ∧ (create_pool exampleSpec).1.target_low_priority_nodes = 0
    ∧ (create_pool exampleSpec).1.vm_size = exampleSpec.vm_size
    ∧ (create_pool exampleSpec).1.virtual_machine_configuration.image_reference
        = ⟨"Canonical", "UbuntuServer", "16.04-LTS", "latest"⟩
    ∧ (create_pool exampleSpec).2 = [Event.poolAdd exampleSpec.job_name]
    ∧ AzureBatch.init.vm_size = "Standard_D16s_v3" :=
  c7_pool_parameters exampleSpec

/-- C10: `create_task` appends the hardcoded confindr resource file (file
path `confindr.tar.gz`, sourced from a fixed external blob URL) to the
caller-supplied `input_files` list; the list the caller holds after the
call and the resource files of the submitted task are the same appended
list, one element longer than the staged input references. -/
theorem c10_create_task_appends_confindr (self : JobSpec)
    (input_files : List ResourceFile) :
    (create_task self input_files).2.1 = input_files ++ [confindr_database]
    ∧ (create_task self input_files).1.resource_files
        = (create_task self input_files).2.1
    ∧ (create_task self input_files).1.resource_files.length
        = input_files.length + 1
    ∧ confindr_database.file_path = "confindr.tar.gz"
    ∧ confindr_database.blob_source
        = "https://carlingst01.blob.core.windows.net/databases/confindr.tar.gz" := by
  refine ⟨rfl, rfl, ?_, rfl, rfl⟩
  simp [create_task]

/-- C10 witness: the append theorem at a concrete JobSpec and input list. -/
theorem c10_witness :
    (create_task exampleSpec [⟨"in.csv", "u"⟩]).2.1
        = [⟨"in.csv", "u"⟩] ++ [confindr_database]
    ∧ (create_task exampleSpec [⟨"in.csv", "u"⟩]).1.resource_files
        = (create_task exampleSpec [⟨"in.csv", "u"⟩]).2.1
    ∧ (create_task exampleSpec [⟨"in.csv", "u"⟩]).1.resource_files.length
        = ([⟨"in.csv", "u"⟩] : List ResourceFile).length + 1
    ∧ confindr_database.file_path = "confindr.tar.gz"
    ∧ confindr_database.blob_source
        = "https://carlingst01.blob.core.windows.net/databases/confindr.tar.gz" :=
  c10_create_task_appends_confindr exampleSpec [⟨"in.csv", "u"⟩]

/-- C1 counterexample: with an oracle under which job deletion raises, the
run attempts only the job deletion; pool, output-container and
input-container deletion are not attempted, contrary to the claim that
they still are. -/
theorem c1_counterexample :
    (mainTeardown (fun s => s == TeardownStep.deleteJob) true).1
        = [TeardownStep.deleteJob]
    ∧ (mainTeardown (fun s => s == TeardownStep.deleteJob) true).2
        = some TeardownStep.deleteJob
    ∧ TeardownStep.deletePool
        ∉ (mainTeardown (fun s => s == TeardownStep.deleteJob) true).1
    ∧ TeardownStep.downloadOutputFilesAndDeleteContainer
        ∉ (mainTeardown (fun s => s == TeardownStep.deleteJob) true).1
    ∧ TeardownStep.deleteInputContainer
        ∉ (mainTeardown (fun s => s == TeardownStep.deleteJob) true).1 := by
  decide

/-- C1 amended: teardown is not best-effort: the teardown statements run
in sequence with no exception handling, so when job deletion fails the
exception propagates and none of the remaining deletions (pool, output
container, input container) is attempted. -/
theorem c1_teardown_aborts_on_failure (fails : TeardownStep → Bool)
    (download_output_files : Bool) (h : fails TeardownStep.deleteJob = true) :
    mainTeardown fails download_output_files
      = ([TeardownStep.deleteJob], some TeardownStep.deleteJob) := by
  simp [mainTeardown, h]

/-- C1 witness: the abort theorem at the concrete failing oracle. -/
theorem c1_witness :
    ((fun s => s == TeardownStep.deleteJob) TeardownStep.deleteJob = true)
    ∧ mainTeardown (fun s => s == TeardownStep.deleteJob) true
        = ([TeardownStep.deleteJob], some TeardownStep.deleteJob) :=
  ⟨by decide, c1_teardown_aborts_on_failure _ true (by decide)⟩

/-- C2 counterexample: in a concrete completed run with download requested,
the first download event (the output-container blob listing) occurs after
the job deletion, so the claimed order (download first, then job deletion)
is false. -/
theorem c2_counterexample :
    ¬ (exampleTrace.findIdx isDownloadEvent
        < exampleTrace.findIdx isJobDeleteEvent) := by
  decide

/-- C3 counterexample: in a concrete run with the skip-download flag set
(`download_output_files = false`), nothing is downloaded, but the output
container, although created during the run, is never deleted — contrary to
the claim that it still is. -/
theorem c3_counterexample :
    (∀ e ∈ exampleTraceNoDownload, isDownloadEvent e = false)
    ∧ Event.createContainer "myjob-output" ∈ exampleTraceNoDownload
    ∧ Event.deleteContainer "myjob-output" ∉ exampleTraceNoDownload := by
  decide

/-- C4 counterexample: in a concrete run the output container is created
(by `create_task`) before the task is added, so the claimed creation order
(task before the output container, output container last) is false. -/
theorem c4_counterexample :
    ¬ (exampleTrace.findIdx isTaskAddEvent
        < exampleTrace.findIdx (fun e => e == Event.createContainer "myjob-output")) := by
  decide

/-- C8: evaluation of `download_container` at the failing input.  With
`output_dir = "/tmp/out"` and blobs `a.txt` and `sub/b.txt`, the blob with
a path separator is correctly mirrored under the output directory (its
directory created first), but the top-level blob `a.txt` is written to the
path `a.txt` — relative to the process working directory — instead of the
mirrored path `/tmp/out/a.txt` the specification requires: the non-slash
branch passes `blob.name` as the local file path, ignoring `output_dir`. -/
theorem c8_download_ignores_output_dir_for_top_level_blobs :
    download_container "myjob-output" "/tmp/out" [] ["a.txt", "sub/b.txt"]
      = [Event.listBlobs "myjob-output",
         Event.getBlob "myjob-output" "a.txt" "a.txt",
         Event.makedirs "/tmp/out/sub",
         Event.getBlob "myjob-output" "sub/b.txt" "/tmp/out/sub/b.txt"]
    ∧ osPathJoin "/tmp/out" "a.txt" = "/tmp/out/a.txt"
    ∧ Event.getBlob "myjob-output" "a.txt" "/tmp/out/a.txt"
        ∉ download_container "myjob-output" "/tmp/out" [] ["a.txt", "sub/b.txt"] := by
  refine ⟨by decide, by decide, by decide⟩

/-! ## Shape lemmas about the event chunks of a run -/

/-- Every event emitted for one INPUT request is a blob upload. -/
theorem uploadRequest_events_shape (san sak icn : String)
    (glob : String → List String) (req : String) :
    ∀ e ∈ (uploadRequest san sak icn glob req).1, ∃ c b, e = Event.createBlob c b := by
  intro e he
  unfold uploadRequest at he
  split at he
  · simp only [List.map_map, List.mem_map] at he
    obtain ⟨f, _, rfl⟩ := he
    exact ⟨icn, (osPathSplit f).2, rfl⟩
  · split at he
    · simp only [List.map_map, List.mem_map] at he
      obtain ⟨f, _, rfl⟩ := he
      exact ⟨icn, (osPathSplit f).2, rfl⟩
    · simp at he

/-- Every event of the upload phase is the input-container creation or a
blob upload. -/
theorem upload_events_shape (self : JobSpec) (glob : String → List String) :
    ∀ e ∈ (upload_input_to_blob_storage self glob).1,
      e = Event.createContainer (pyLower self.job_name ++ "-input")
        ∨ ∃ c b, e = Event.createBlob c b := by
  intro e he
  unfold upload_input_to_blob_storage at he
  simp only [List.mem_cons, List.mem_flatten, List.mem_map] at he
  rcases he with rfl | ⟨l, ⟨⟨pr, ⟨req, _, rfl⟩, rfl⟩, hel⟩⟩
  · exact Or.inl rfl
  · exact Or.inr (uploadRequest_events_shape _ _ _ glob req e hel)

/-- Every event of the polling loop is a task listing for the job. -/
theorem wait_events_shape (job_name : String) :
    ∀ rounds, ∀ e ∈ wait_events job_name rounds, e = Event.taskList job_name := by
  intro rounds
  induction rounds with
  | nil => intro e he; simp [wait_events] at he
  | cons r rest ih =>
    intro e he
    unfold wait_events at he
    rcases List.mem_cons.mp he with rfl | h
    · rfl
    · split at h
      · simp at h
      · exact ih e h

/-- Every event of the download loop is a blob fetch from the container or
a directory creation. -/
theorem download_loop_shape (c od : String) :
    ∀ (blobs dirs : List String), ∀ e ∈ download_loop c od dirs blobs,
      (∃ b p, e = Event.getBlob c b p) ∨ (∃ p, e = Event.makedirs p) := by
  intro blobs
  induction blobs with
  | nil => intro dirs e he; simp [download_loop] at he
  | cons b rest ih =>
    intro dirs e he
    unfold download_loop at he
    split at he
    · split at he
      · rcases List.mem_cons.mp he with rfl | h
        · exact Or.inl ⟨_, _, rfl⟩
        · exact ih _ e h
      · rcases List.mem_cons.mp he with rfl | h
        · exact Or.inr ⟨_, rfl⟩
        · rcases List.mem_cons.mp h with rfl | h2
          · exact Or.inl ⟨_, _, rfl⟩
          · exact ih _ e h2
    · rcases List.mem_cons.mp he with rfl | h
      · exact Or.inl ⟨_, _, rfl⟩
      · exact ih _ e h

/-- Every event of `download_output_files_and_delete_container` is a
teardown event and none is a creation event. -/
theorem download_phase_shape (self : JobSpec) (dirs blobs : List String) :
    ∀ e ∈ download_output_files_and_delete_container self dirs blobs,
      isTeardownEvent e = true ∧ isCreationEvent e = false := by
  intro e he
  unfold download_output_files_and_delete_container download_container at he
  rcases List.mem_cons.mp he with rfl | h
  · exact ⟨rfl, rfl⟩
  · rcases List.mem_append.mp h with h1 | h2
    · rcases download_loop_shape _ _ _ _ e h1 with ⟨b, p, rfl⟩ | ⟨p, rfl⟩
      · exact ⟨rfl, rfl⟩
      · exact ⟨rfl, rfl⟩
    · rcases List.mem_singleton.mp h2 with rfl
      exact ⟨rfl, rfl⟩

/-- The run trace written as its nine program-order chunks. -/
theorem mainEvents_chunks (self : JobSpec) (glob : String → List String)
    (dirs : List String) (rounds : List (List CloudTask)) (blobs : List String)
    (download_output_files : Bool) :
    mainEvents self glob dirs rounds blobs download_output_files
      = (upload_input_to_blob_storage self glob).1
        ++ ((create_pool self).2
        ++ ((create_job self).2
        ++ ((create_task self (upload_input_to_blob_storage self glob).2).2.2
        ++ (wait_events self.job_name rounds
        ++ (delete_job self
        ++ (delete_pool self
        ++ ((if download_output_files then
              download_output_files_and_delete_container self dirs blobs
            else [])
        ++ delete_input_container self))))))) := by
  simp [mainEvents]

/-- C4 counterexample support is `c4_counterexample` above; this is the
amended creation order: in every run the resources are created in the
order input container, pool, job, output container, task — the output
container is created by `create_task` immediately before the task is
added, so the task (not the output container) comes last; no other
resource-creation event occurs outside this sequence. -/
theorem c4_creation_order (self : JobSpec) (glob : String → List String)
    (dirs : List String) (rounds : List (List CloudTask)) (blobs : List String)
    (download_output_files : Bool) :
    ∃ u w,
      mainEvents self glob dirs rounds blobs download_output_files
        = Event.createContainer (spec_input_container_name self.job_name)
            :: (u ++ (Event.poolAdd self.job_name
                :: Event.jobAdd self.job_name self.job_name
                :: Event.createContainer (spec_output_container_name self.job_name)
                :: Event.taskAdd self.job_name "Task1" :: w))
      ∧ (∀ e ∈ u, isCreationEvent e = false)
      ∧ (∀ e ∈ w, isCreationEvent e = false) := by
  refine ⟨uploadBlobEvents self glob,
    wait_events self.job_name rounds
      ++ (Event.jobDelete self.job_name
          :: Event.poolDelete self.job_name
          :: ((if download_output_files then
                download_output_files_and_delete_container self dirs blobs
              else [])
              ++ [Event.deleteContainer (spec_input_container_name self.job_name)])),
    ?_, ?_, ?_⟩
  · rw [mainEvents_chunks]
    simp [upload_input_to_blob_storage, uploadBlobEvents, create_pool, create_job,
      create_task, delete_job, delete_pool, delete_input_container,
      spec_input_container_name, spec_output_container_name]
  · intro e he
    simp only [uploadBlobEvents, List.mem_flatten, List.mem_map] at he
    obtain ⟨l, ⟨⟨pr, ⟨req, _, rfl⟩, rfl⟩, hel⟩⟩ := he
    obtain ⟨c, b, rfl⟩ := uploadRequest_events_shape _ _ _ glob req e hel
    rfl
  · intro e he
    rcases List.mem_append.mp he with h | h
    · rw [wait_events_shape self.job_name rounds e h]; rfl
    · rcases List.mem_cons.mp h with rfl | h
      · rfl
      · rcases List.mem_cons.mp h with rfl | h
        · rfl
        · rcases List.mem_append.mp h with h | h
          · split at h
            · exact (download_phase_shape self dirs blobs e h).2
            · simp at h
          · rcases List.mem_singleton.mp h with rfl
            rfl

/-- C4 witness: the amended creation order at the concrete example run. -/
theorem c4_witness :
    ∃ u w,
      mainEvents exampleSpec exampleGlob [] exampleRounds ["a.txt"] true
        = Event.createContainer (spec_input_container_name exampleSpec.job_name)
            :: (u ++ (Event.poolAdd exampleSpec.job_name
                :: Event.jobAdd exampleSpec.job_name exampleSpec.job_name
                :: Event.createContainer (spec_output_container_name exampleSpec.job_name)
                :: Event.taskAdd exampleSpec.job_name "Task1" :: w))
      ∧ (∀ e ∈ u, isCreationEvent e = false)
      ∧ (∀ e ∈ w, isCreationEvent e = false) :=
  c4_creation_order exampleSpec exampleGlob [] exampleRounds ["a.txt"] true

/-- C2 amended: in every run that reaches teardown with download requested,
the teardown steps execute in the order: delete the job, delete the pool,
then download the output container (the blob listing followed by the
per-blob fetches and directory creations) and delete the output container,
and finally delete the input container — the download happens after job
and pool deletion, not first as the claim states, and the output-container
deletion is part of the download step. -/
theorem c2_teardown_order (self : JobSpec) (glob : String → List String)
    (dirs : List String) (rounds : List (List CloudTask)) (blobs : List String) :
    ∃ pre dl,
      mainEvents self glob dirs rounds blobs true
        = pre ++ (Event.jobDelete self.job_name
            :: Event.poolDelete self.job_name
            :: Event.listBlobs (spec_output_container_name self.job_name)
            :: (dl ++ [Event.deleteContainer (spec_output_container_name self.job_name),
                       Event.deleteContainer (spec_input_container_name self.job_name)]))
      ∧ (∀ e ∈ pre, isTeardownEvent e = false)
      ∧ (∀ e ∈ dl,
          (∃ b p, e = Event.getBlob (spec_output_container_name self.job_name) b p)
          ∨ (∃ p, e = Event.makedirs p)) := by
  refine ⟨(upload_input_to_blob_storage self glob).1
      ++ ((create_pool self).2
      ++ ((create_job self).2
      ++ ((create_task self (upload_input_to_blob_storage self glob).2).2.2
      ++ wait_events self.job_name rounds))),
    download_loop (spec_output_container_name self.job_name) "." dirs blobs,
    ?_, ?_, ?_⟩
  · rw [mainEvents_chunks]
    simp [delete_job, delete_pool, delete_input_container,
      download_output_files_and_delete_container, download_container,
      spec_input_container_name, spec_output_container_name]
  · intro e he
    rcases List.mem_append.mp he with h | h
    · rcases upload_events_shape self glob e h with rfl | ⟨c, b, rfl⟩
      · rfl
      · rfl
    · rcases List.mem_append.mp h with h | h
      · simp only [create_pool] at h
        rcases List.mem_singleton.mp h with rfl
        rfl
      · rcases List.mem_append.mp h with h | h
        · simp only [create_job] at h
          rcases List.mem_singleton.mp h with rfl
          rfl
        · rcases List.mem_append.mp h with h | h
          · simp only [create_task] at h
            rcases List.mem_cons.mp h with rfl | h
            · rfl
            · rcases List.mem_singleton.mp h with rfl
              rfl
          · rw [wait_events_shape self.job_name rounds e h]
            rfl
  · intro e he
    exact download_loop_shape _ _ _ _ e he

/-- C2 witness: the amended teardown order at the concrete example run. -/
theorem c2_witness :
    ∃ pre dl,
      mainEvents exampleSpec exampleGlob [] exampleRounds ["a.txt"] true
        = pre ++ (Event.jobDelete exampleSpec.job_name
            :: Event.poolDelete exampleSpec.job_name
            :: Event.listBlobs (spec_output_container_name exampleSpec.job_name)
            :: (dl ++ [Event.deleteContainer (spec_output_container_name exampleSpec.job_name),
                       Event.deleteContainer (spec_input_container_name exampleSpec.job_name)]))
      ∧ (∀ e ∈ pre, isTeardownEvent e = false)
      ∧ (∀ e ∈ dl,
          (∃ b p, e = Event.getBlob (spec_output_container_name exampleSpec.job_name) b p)
          ∨ (∃ p, e = Event.makedirs p)) :=
  c2_teardown_order exampleSpec exampleGlob [] exampleRounds ["a.txt"]

/-- C3 amended: when the skip-download flag is set (the `-d` CLI flag makes
`download_output_files` false), a completed run downloads nothing, and the
output container is not deleted either (its deletion lives inside the
skipped download step, so the outputs stay in remote storage inside their
container); the only container deletion performed is that of the input
container. -/
theorem c3_skip_download_behavior (self : JobSpec) (glob : String → List String)
    (dirs : List String) (rounds : List (List CloudTask)) (blobs : List String) :
    (∀ e ∈ mainEvents self glob dirs rounds blobs false, isDownloadEvent e = false)
    ∧ (∀ n, Event.deleteContainer n ∈ mainEvents self glob dirs rounds blobs false →
        n = spec_input_container_name self.job_name)
    ∧ Event.deleteContainer (spec_input_container_name self.job_name)
        ∈ mainEvents self glob dirs rounds blobs false := by
  have hmain : mainEvents self glob dirs rounds blobs false
      = (upload_input_to_blob_storage self glob).1
        ++ ((create_pool self).2
        ++ ((create_job self).2
        ++ ((create_task self (upload_input_to_blob_storage self glob).2).2.2
        ++ (wait_events self.job_name rounds
        ++ (delete_job self
        ++ (delete_pool self
        ++ delete_input_container self)))))) := by
    rw [mainEvents_chunks]
    simp
  refine ⟨?_, ?_, ?_⟩
  · intro e he
    rw [hmain] at he
    rcases List.mem_append.mp he with h | h
    · rcases upload_events_shape self glob e h with rfl | ⟨c, b, rfl⟩
      · rfl
      · rfl
    · rcases List.mem_append.mp h with h | h
      · simp only [create_pool] at h
        rcases List.mem_singleton.mp h with rfl; rfl
      · rcases List.mem_append.mp h with h | h
        · simp only [create_job] at h
          rcases List.mem_singleton.mp h with rfl; rfl
        · rcases List.mem_append.mp h with h | h
          · simp only [create_task] at h
            rcases List.mem_cons.mp h with rfl | h
            · rfl
            · rcases List.mem_singleton.mp h with rfl; rfl
          · rcases List.mem_append.mp h with h | h
            · rw [wait_events_shape self.job_name rounds e h]; rfl
            · rcases List.mem_append.mp h with h | h
              · simp only [delete_job] at h
                rcases List.mem_singleton.mp h with rfl; rfl
              · rcases List.mem_append.mp h with h | h
                · simp only [delete_pool] at h
                  rcases List.mem_singleton.mp h with rfl; rfl
                · simp only [delete_input_container] at h
                  rcases List.mem_singleton.mp h with rfl; rfl
  · intro n hn
    rw [hmain] at hn
    rcases List.mem_append.mp hn with h | h
    · rcases upload_events_shape self glob _ h with h2 | ⟨c, b, h2⟩ <;> simp at h2
    · rcases List.mem_append.mp h with h | h
      · simp [create_pool] at h
      · rcases List.mem_append.mp h with h | h
        · simp [create_job] at h
        · rcases List.mem_append.mp h with h | h
          · simp [create_task] at h
          · rcases List.mem_append.mp h with h | h
            · have := wait_events_shape self.job_name rounds _ h
              simp at this
            · rcases List.mem_append.mp h with h | h
              · simp [delete_job] at h
              · rcases List.mem_append.mp h with h | h
                · simp [delete_pool] at h
                · simp only [delete_input_container, List.mem_singleton,
                    Event.deleteContainer.injEq] at h
                  exact h.symm ▸ rfl
  · rw [hmain]
    simp [delete_input_container, spec_input_container_name]

/-- C3 witness: the amended skip-download behavior at the concrete example
run. -/
theorem c3_witness :
    (∀ e ∈ mainEvents exampleSpec exampleGlob [] exampleRounds ["a.txt"] false,
        isDownloadEvent e = false)
    ∧ (∀ n, Event.deleteContainer n
          ∈ mainEvents exampleSpec exampleGlob [] exampleRounds ["a.txt"] false →
        n = spec_input_container_name exampleSpec.job_name)
    ∧ Event.deleteContainer (spec_input_container_name exampleSpec.job_name)
        ∈ mainEvents exampleSpec exampleGlob [] exampleRounds ["a.txt"] false :=
  c3_skip_download_behavior exampleSpec exampleGlob [] exampleRounds ["a.txt"]

/-! ## CompletionPoller lemmas -/

/-- The inner for-loop computes the conjunction of its starting flag with
per-task completeness. -/
theorem allTasksCompleted_foldl (tasks : List CloudTask) :
    ∀ init : Bool,
      tasks.foldl (fun all_tasks_completed task =>
        if ¬ task.state = TaskState.completed then false else all_tasks_completed) init
      = (init && tasks.all (fun t => t.state == TaskState.completed)) := by
  induction tasks with
  | nil => intro init; simp
  | cons t r ih =>
    intro init
    simp only [List.foldl_cons, List.all_cons]
    rw [ih]
    by_cases h : t.state = TaskState.completed
    · simp [h]
    · simp [h]

/-- The completion flag is set exactly when every listed task has state
`completed`. -/
theorem allTasksCompleted_true_iff (tasks : List CloudTask) :
    allTasksCompleted tasks = true ↔ ∀ t ∈ tasks, t.state = TaskState.completed := by
  unfold allTasksCompleted
  rw [allTasksCompleted_foldl]
  simp [List.all_eq_true]

/-- The completion flag is cleared exactly when some listed task is not
`completed`. -/
theorem allTasksCompleted_false_iff (tasks : List CloudTask) :
    allTasksCompleted tasks = false ↔ ∃ t ∈ tasks, ¬ t.state = TaskState.completed := by
  rw [Bool.eq_false_iff, Ne, allTasksCompleted_true_iff]
  push_neg
  rfl

/-- The polling loop returns at round `i` exactly when round `i` exists,
all its tasks are completed, and every earlier round has an uncompleted
task. -/
theorem wait_characterization :
    ∀ (rounds : List (List CloudTask)) (i : Nat),
      wait_for_tasks_to_complete rounds = some i ↔
        (i < rounds.length
         ∧ (∀ t ∈ rounds.getD i [], t.state = TaskState.completed)
         ∧ (∀ j, j < i → ∃ t ∈ rounds.getD j [], ¬ t.state = TaskState.completed)) := by
  intro rounds
  induction rounds with
  | nil =>
    intro i
    simp [wait_for_tasks_to_complete]
  | cons r rest ih =>
    intro i
    by_cases hc : allTasksCompleted r = true
    · constructor
      · intro h
        have hi : i = 0 := by
          unfold wait_for_tasks_to_complete at h
          rw [if_pos hc] at h
          exact (Option.some.inj h).symm
        subst hi
        refine ⟨Nat.succ_pos _, ?_, ?_⟩
        · intro t ht
          exact (allTasksCompleted_true_iff r).mp hc t (by simpa using ht)
        · intro j hj
          exact absurd hj (Nat.not_lt_zero j)
      · rintro ⟨h1, h2, h3⟩
        have hi : i = 0 := by
          cases i with
          | zero => rfl
          | succ k =>
            obtain ⟨t, ht, hbad⟩ := h3 0 (Nat.succ_pos k)
            exact absurd ((allTasksCompleted_true_iff r).mp hc t (by simpa using ht)) hbad
        subst hi
        unfold wait_for_tasks_to_complete
        rw [if_pos hc]
    · have hcf : allTasksCompleted r = false := by
        simpa using hc
      have hmap : wait_for_tasks_to_complete (r :: rest)
          = (wait_for_tasks_to_complete rest).map (fun i => i + 1) := by
        conv_lhs => rw [wait_for_tasks_to_complete]
        rw [if_neg hc]
      cases i with
      | zero =>
        rw [hmap]
        constructor
        · intro h
          cases hw : wait_for_tasks_to_complete rest with
          | none => rw [hw] at h; simp at h
          | some a => rw [hw] at h; simp at h
        · rintro ⟨h1, h2, h3⟩
          obtain ⟨t, ht, hbad⟩ := (allTasksCompleted_false_iff r).mp hcf
          exact absurd (h2 t (by simpa using ht)) hbad
      | succ k =>
        have hmap2 : ((wait_for_tasks_to_complete rest).map (fun i => i + 1) = some (k + 1))
            ↔ wait_for_tasks_to_complete rest = some k := by
          cases hw : wait_for_tasks_to_complete rest with
          | none => simp
          | some a => simp
        rw [hmap, hmap2, ih k]
        constructor
        · rintro ⟨h1, h2, h3⟩
          refine ⟨Nat.succ_lt_succ h1, ?_, ?_⟩
          · intro t ht
            exact h2 t (by simpa using ht)
          · intro j hj
            cases j with
            | zero =>
              obtain ⟨t, ht, hbad⟩ := (allTasksCompleted_false_iff r).mp hcf
              exact ⟨t, by simpa using ht, hbad⟩
            | succ j2 =>
              obtain ⟨t, ht, hbad⟩ := h3 j2 (Nat.lt_of_succ_lt_succ hj)
              exact ⟨t, by simpa using ht, hbad⟩
        · rintro ⟨h1, h2, h3⟩
          refine ⟨Nat.lt_of_succ_lt_succ h1, ?_, ?_⟩
          · intro t ht
            exact h2 t (by simpa using ht)
          · intro j hj
            obtain ⟨t, ht, hbad⟩ := h3 (j + 1) (Nat.succ_lt_succ hj)
            exact ⟨t, by simpa using ht, hbad⟩

/-- C6: the completion poller returns exactly after the first polling
round in which every task listed for the job has state `completed`: the
returning round has all tasks terminal, every earlier round has some task
not yet terminal (so with one task it returns on the first observation of
that task as terminal), and terminality is judged by state alone — a
single task observed as completed with a non-zero exit code ends the loop
at once. -/
theorem c6_poller_characterization :
    (∀ (rounds : List (List CloudTask)) (i : Nat),
      wait_for_tasks_to_complete rounds = some i ↔
        (i < rounds.length
         ∧ (∀ t ∈ rounds.getD i [], t.state = TaskState.completed)
         ∧ (∀ j, j < i → ∃ t ∈ rounds.getD j [], ¬ t.state = TaskState.completed)))
    ∧ wait_for_tasks_to_complete [[⟨TaskState.completed, 7⟩]] = some 0 :=
  ⟨wait_characterization, by decide⟩

/-- C6 witness: a single task observed once as running and once as
completed makes the loop return after the second round. -/
theorem c6_witness :
    wait_for_tasks_to_complete [[⟨TaskState.running, 0⟩], [⟨TaskState.completed, 0⟩]]
      = some 1 :=
  (c6_poller_characterization.1 [[⟨TaskState.running, 0⟩], [⟨TaskState.completed, 0⟩]] 1).mpr
    (by decide)

/-! ## Configuration-parsing lemmas -/

/-- A line whose `:=` split has at least two segments is dispatched without
raising. -/
theorem parse_line_ok (ab : AzureBatch) (unrec : List String) (l : String)
    (h : 2 ≤ (pySplitColonEq (pyRstrip l)).length) :
    ∃ r, parse_line ab unrec l = Except.ok r := by
  rcases hsp : pySplitColonEq (pyRstrip l) with _ | ⟨a, _ | ⟨b, t⟩⟩
  · rw [hsp] at h; simp at h
  · rw [hsp] at h; simp at h
  · refine ⟨applyOption ab unrec a b, ?_⟩
    unfold parse_line
    rw [hsp]

/-- A line whose `:=` split has fewer than two segments raises IndexError
at the `x[1]` access. -/
theorem parse_line_error (ab : AzureBatch) (unrec : List String) (l : String)
    (h : (pySplitColonEq (pyRstrip l)).length < 2) :
    parse_line ab unrec l = Except.error PyError.indexError := by
  rcases hsp : pySplitColonEq (pyRstrip l) with _ | ⟨a, _ | ⟨b, t⟩⟩
  · unfold parse_line
    rw [hsp]
  · unfold parse_line
    rw [hsp]
  · rw [hsp] at h
    simp at h
    omega

/-- The line loop raises IndexError whenever some line splits into a single
segment. -/
theorem parse_lines_error (lines : List String) :
    ∀ (ab : AzureBatch) (unrec : List String),
      (∃ l ∈ lines, (pySplitColonEq (pyRstrip l)).length = 1) →
      parse_lines ab unrec lines = Except.error PyError.indexError := by
  induction lines with
  | nil => intro ab unrec h; simp at h
  | cons l rest ih =>
    intro ab unrec h
    by_cases hl : 2 ≤ (pySplitColonEq (pyRstrip l)).length
    · obtain ⟨⟨ab2, un2⟩, hr⟩ := parse_line_ok ab unrec l hl
      unfold parse_lines
      rw [hr]
      apply ih
      obtain ⟨l2, hl2, hbad⟩ := h
      rcases List.mem_cons.mp hl2 with rfl | hmem
      · rw [hbad] at hl
        exact absurd hl (by omega)
      · exact ⟨l2, hmem, hbad⟩
    · push_neg at hl
      unfold parse_lines
      rw [parse_line_error ab unrec l hl]

/-- The line loop returns normally when every line splits into at least
two segments. -/
theorem parse_lines_ok (lines : List String) :
    ∀ (ab : AzureBatch) (unrec : List String),
      (∀ l ∈ lines, 2 ≤ (pySplitColonEq (pyRstrip l)).length) →
      ∃ r, parse_lines ab unrec lines = Except.ok r := by
  induction lines with
  | nil => intro ab unrec _; exact ⟨(ab, unrec), rfl⟩
  | cons l rest ih =>
    intro ab unrec h
    obtain ⟨⟨ab2, un2⟩, hr⟩ := parse_line_ok ab unrec l (h l (List.mem_cons_self l rest))
    unfold parse_lines
    rw [hr]
    exact ih ab2 un2 (fun l2 hl2 => h l2 (List.mem_cons_of_mem l hl2))

/-- C9: for every configuration file with at least one line that, after
stripping trailing whitespace, lacks the `:=` separator (its split has a
single segment — a blank line included, third conjunct), parsing raises an
uncaught IndexError at the `x[1]` access instead of reporting the line as
an unrecognized option; and parsing never raises IndexError on a file
whose every line contains the separator, so parsing is total exactly over
such files. -/
theorem c9_parse_indexerror :
    (∀ lines : List String,
      (∃ l ∈ lines, (pySplitColonEq (pyRstrip l)).length = 1) →
        parse_configuration_file lines = Except.error PyError.indexError)
    ∧ (∀ lines : List String,
      (∀ l ∈ lines, 2 ≤ (pySplitColonEq (pyRstrip l)).length) →
        ¬ parse_configuration_file lines = Except.error PyError.indexError)
    ∧ (pySplitColonEq (pyRstrip "")).length = 1 := by
  refine ⟨?_, ?_, by decide⟩
  · intro lines h
    unfold parse_configuration_file
    rw [parse_lines_error lines AzureBatch.init [] h]
  · intro lines h hcontra
    obtain ⟨⟨ab2, un2⟩, hr⟩ := parse_lines_ok lines AzureBatch.init [] h
    unfold parse_configuration_file at hcontra
    rw [hr] at hcontra
    split at hcontra
    · simp_all
    · split at hcontra <;> simp_all

/-- C9 witness: a file whose second line is blank raises IndexError. -/
theorem c9_witness :
    (∃ l ∈ ["JOB_NAME:=x", ""], (pySplitColonEq (pyRstrip l)).length = 1)
    ∧ parse_configuration_file ["JOB_NAME:=x", ""] = Except.error PyError.indexError :=
  ⟨by decide, c9_parse_indexerror.1 ["JOB_NAME:=x", ""] (by decide)⟩
